import Mathlib

/-!
Shallow embedding of `src/generate.py` (Kubernetes Profile Generator).
The script loads a YAML profile and renders text artifacts: a Dockerfile,
a Helm chart (Chart.yaml, values.yaml, namespace/deployment/service
templates) and a NetworkPolicy manifest.  Every artifact's content is a
pure function of the profile, which we embed here; file writes and prints
carry no information beyond these strings.
-/

namespace TpInfra

/-- A network rule, one element of `network.rules` in the profile.
`direction`, `protocol`, `port` are accessed with `rule[...]` in the
source (required), while the peer namespace is read with
`rule.get("from", \x7b\x7d).get("namespace", "")` (optional), which we
model as an `Option String`. -/
structure Rule where
  direction : String
  protocol : String
  port : Nat
  fromNamespace : Option String
  toNamespace : Option String
deriving DecidableEq

/-- The `network` section of the profile.  `rules` and both deny flags
are read with `.get(...)` in the source, hence optional. -/
structure Network where
  rules : Option (List Rule)
  default_deny_ingress : Option Bool
  default_deny_egress : Option Bool
deriving DecidableEq

/-- The profile document fields the generator accesses. -/
structure Profile where
  name : String
  version : String
  distro : String
  os_version : String
  packages : List String
  network : Network
deriving DecidableEq

/-- `network.get("rules", [])` (generate.py line 162). -/
def getRules (n : Network) : List Rule := n.rules.getD []

/-- Python truthiness of an optional boolean flag read with `.get(...)`:
a missing key is `None`, which is falsy. -/
def truthy (o : Option Bool) : Bool := o.getD false

/-! ## Dockerfile generation (generate_dockerfile, lines 25-47) -/

/-- `base_image = f"\x7bdistro\x7d:\x7bversion\x7d"` (line 31). -/
def base_image (p : Profile) : String := p.distro ++ ":" ++ p.os_version

/-- `pkg_list = " ".join(packages)` (line 32). -/
def pkg_list (p : Profile) : String := String.intercalate " " p.packages

/-- The Dockerfile contents (lines 34-41). -/
def dockerfile (p : Profile) : String :=
  "FROM " ++ base_image p ++
  "\n\nRUN apt-get update && \\\n    apt-get install -y " ++ pkg_list p ++
  " && \\\n    rm -rf /var/lib/apt/lists/*\n\nCMD [\"/bin/sh\", \"-c\", \"while true; do sleep 3600; done\"]\n"

/-! ## Helm chart generation (generate_helm, lines 50-156) -/

/-- `image_tag = f"\x7bdistro\x7d-\x7bname\x7d-v\x7bprof_ver\x7d"` (line 58). -/
def image_tag (p : Profile) : String :=
  p.distro ++ "-" ++ p.name ++ "-v" ++ p.version

/-- Chart.yaml contents (lines 64-70). -/
def chart_yaml (p : Profile) : String :=
  "apiVersion: v2\nname: " ++ p.name ++
  "\ndescription: Auto-generated chart for profile " ++ p.name ++
  "\ntype: application\nversion: \"" ++ p.version ++
  "\"\nappVersion: \"" ++ p.version ++ "\"\n"

/-- values.yaml contents (lines 76-91).  The text between interpolation
points is split here exactly at the source's interpolation points, plus
once more around the `tag:` field. -/
def values_yaml (p : Profile) : String :=
  "replicaCount: 1\n\nimage:\n  repository: YOUR_DOCKERHUB_USERNAME/" ++ p.name ++
  "\n  " ++ "tag: \"" ++ image_tag p ++ "\"" ++
  "\n  pullPolicy: IfNotPresent\n\nnamespace: " ++ p.name ++
  "\n\nservice:\n  type: ClusterIP\n  port: 80\n\napp:\n  name: " ++ p.name ++ "\n"

/-- templates/namespace.yaml contents (lines 97-101): an f-string, so the
profile name is interpolated at generation time. -/
def namespace_yaml (p : Profile) : String :=
  "apiVersion: v1\nkind: Namespace\nmetadata:\n  name: " ++ p.name ++ "\n"

/-- templates/deployment.yaml contents (lines 107-131): a plain (non-f)
string, written out verbatim; `\x7b\x7b ... \x7d\x7d` are Helm template
references left for install time. -/
def deployment_yaml : String :=
  "apiVersion: apps/v1\nkind: Deployment\nmetadata:\n  name: \x7b\x7b .Values.app.name \x7d\x7d\n  namespace: \x7b\x7b .Values.namespace \x7d\x7d\n  labels:\n    app: \x7b\x7b .Values.app.name \x7d\x7d\nspec:\n  replicas: \x7b\x7b .Values.replicaCount \x7d\x7d\n  selector:\n    matchLabels:\n      app: \x7b\x7b .Values.app.name \x7d\x7d\n  template:\n    metadata:\n      labels:\n        app: \x7b\x7b .Values.app.name \x7d\x7d\n    spec:\n      containers:\n        - name: \x7b\x7b .Values.app.name \x7d\x7d\n          image: \"\x7b\x7b .Values.image.repository \x7d\x7d:\x7b\x7b .Values.image.tag \x7d\x7d\"\n          imagePullPolicy: \x7b\x7b .Values.image.pullPolicy \x7d\x7d\n          ports:\n            - containerPort: 80\n          command: [\"/bin/sh\", \"-c\", \"while true; do sleep 3600; done\"]\n"

/-- templates/service.yaml contents (lines 137-150): a plain (non-f)
string, written out verbatim. -/
def service_yaml : String :=
  "apiVersion: v1\nkind: Service\nmetadata:\n  name: \x7b\x7b .Values.app.name \x7d\x7d-svc\n  namespace: \x7b\x7b .Values.namespace \x7d\x7d\nspec:\n  selector:\n    app: \x7b\x7b .Values.app.name \x7d\x7d\n  ports:\n    - protocol: TCP\n      port: \x7b\x7b .Values.service.port \x7d\x7d\n      targetPort: 80\n  type: \x7b\x7b .Values.service.type \x7d\x7d\n"

/-! ## NetworkPolicy generation (generate_network_policies, lines 159-236) -/

/-- `ingress_rules = [r for r in rules if r["direction"] == "ingress"]` (line 164). -/
def ingress_rules (rules : List Rule) : List Rule :=
  rules.filter (fun r => r.direction == "ingress")

/-- `egress_rules = [r for r in rules if r["direction"] == "egress"]` (line 165). -/
def egress_rules (rules : List Rule) : List Rule :=
  rules.filter (fun r => r.direction == "egress")

/-- The per-rule text appended to the ingress block (lines 172-180);
`ns = rule.get("from", \x7b\x7d).get("namespace", "")`. -/
def ingress_entry (rule : Rule) : String :=
  "  - from:\n    - namespaceSelector:\n        matchLabels:\n          kubernetes.io/metadata.name: " ++
  rule.fromNamespace.getD "" ++
  "\n    ports:\n    - protocol: " ++ rule.protocol ++
  "\n      port: " ++ toString rule.port ++ "\n"

/-- The per-rule text appended to the egress block (lines 188-196);
`ns = rule.get("to", \x7b\x7d).get("namespace", "")`. -/
def egress_entry (rule : Rule) : String :=
  "  - to:\n    - namespaceSelector:\n        matchLabels:\n          kubernetes.io/metadata.name: " ++
  rule.toNamespace.getD "" ++
  "\n    ports:\n    - protocol: " ++ rule.protocol ++
  "\n      port: " ++ toString rule.port ++ "\n"

/-- The ingress block (lines 168-182): starts from the header line and
appends one entry per ingress rule with `+=`; if there are no ingress
rules the block is the literal empty list. -/
def ingress_block (rules : List Rule) : String :=
  if ingress_rules rules ≠ [] then
    (ingress_rules rules).foldl (fun acc r => acc ++ ingress_entry r) "  ingress:\n"
  else "  ingress: []\n"

/-- The egress block (lines 184-199). -/
def egress_block (rules : List Rule) : String :=
  if egress_rules rules ≠ [] then
    (egress_rules rules).foldl (fun acc r => acc ++ egress_entry r) "  egress:\n"
  else "  egress: []\n"

/-- `policy_types` (lines 202-206): "Ingress" is appended when the
`default_deny_ingress` flag is truthy, then "Egress" when
`default_deny_egress` is truthy. -/
def policy_types (n : Network) : List String :=
  (if truthy n.default_deny_ingress then ["Ingress"] else []) ++
  (if truthy n.default_deny_egress then ["Egress"] else [])

/-- `policy_types_str = "\n".join([f"  - \x7bpt\x7d" for pt in policy_types])` (line 207). -/
def policy_types_str (n : Network) : String :=
  String.intercalate "\n" ((policy_types n).map (fun pt => "  - " ++ pt))

/-- Text of the default-deny policy document up to and including the
`policyTypes:` line (lines 209-218 of the f-string). -/
def deny_policy_header : String :=
  "# Policy 1: Default Deny\napiVersion: networking.k8s.io/v1\nkind: NetworkPolicy\nmetadata:\n  name: default-deny\n  namespace: \x7b\x7b .Values.namespace \x7d\x7d\nspec:\n  podSelector: \x7b\x7d\n  policyTypes:\n"

/-- Text of the allow policy document up to and including the
`policyTypes:` line (lines 220-231 of the f-string). -/
def allow_policy_header : String :=
  "# Policy 2: Allow exceptions\napiVersion: networking.k8s.io/v1\nkind: NetworkPolicy\nmetadata:\n  name: \x7b\x7b .Values.app.name \x7d\x7d-allow\n  namespace: \x7b\x7b .Values.namespace \x7d\x7d\nspec:\n  podSelector:\n    matchLabels:\n      app: \x7b\x7b .Values.app.name \x7d\x7d\n  policyTypes:\n"

/-- The full networkpolicy.yaml contents (lines 209-232): the deny
document, a document separator, then the allow document ending with the
ingress and egress blocks. -/
def networkpolicy_yaml (p : Profile) : String :=
  deny_policy_header ++ policy_types_str p.network ++
  "\n---\n" ++
  allow_policy_header ++ policy_types_str p.network ++ "\n" ++
  ingress_block (getRules p.network) ++ egress_block (getRules p.network)

/-- All text artifacts one run of the generator writes (`main` calls
`generate_dockerfile` then `generate_helm`, which also writes the
network policies). -/
structure Artifacts where
  dockerfileOut : String
  chartYaml : String
  valuesYaml : String
  namespaceYaml : String
  deploymentYaml : String
  serviceYaml : String
  networkpolicyYaml : String
deriving DecidableEq

/-- The generator as a single pure function from profile to artifacts. -/
def generateAll (p : Profile) : Artifacts :=
  ⟨dockerfile p, chart_yaml p, values_yaml p, namespace_yaml p,
   deployment_yaml, service_yaml, networkpolicy_yaml p⟩

/-! ## Helper notions for reasoning about the generated text -/

/-- Concatenation of a list of strings (left to right). -/
def concatStrings : List String → String
  | [] => ""
  | s :: l => s ++ concatStrings l

/-- `needle` occurs as a contiguous substring of `hay`. -/
def occursIn (needle hay : String) : Prop :=
  needle.data <:+: hay.data

instance (n h : String) : Decidable (occursIn n h) := by
  unfold occursIn; infer_instance

theorem foldl_append_eq_concat {α : Type} (f : α → String) :
    ∀ (l : List α) (init : String),
      l.foldl (fun acc r => acc ++ f r) init = init ++ concatStrings (l.map f) := by
  intro l
  induction l with
  | nil => intro init; simp [concatStrings]
  | cons a t ih =>
    intro init
    simp only [List.foldl_cons, List.map_cons, concatStrings]
    rw [ih (init ++ f a), String.append_assoc]

theorem occursIn_of_eq_append (n a b h : String) (e : h = a ++ (n ++ b)) :
    occursIn n h := by
  subst e
  exact ⟨a.data, b.data, by simp [String.data_append, List.append_assoc]⟩

theorem occursIn_refl (s : String) : occursIn s s :=
  ⟨[], [], by simp⟩

theorem occursIn_append_right (a n h : String) (hx : occursIn n h) :
    occursIn n (a ++ h) := by
  obtain ⟨s, t, e⟩ := hx
  exact ⟨a.data ++ s, t, by simp [String.data_append, List.append_assoc, ← e]⟩

theorem occursIn_append_left (n h b : String) (hx : occursIn n h) :
    occursIn n (h ++ b) := by
  obtain ⟨s, t, e⟩ := hx
  exact ⟨s, t ++ b.data, by simp [String.data_append, List.append_assoc, ← e]⟩

theorem occursIn_concat_of_mem {α : Type} (f : α → String) (r : α) :
    ∀ (l : List α), r ∈ l → occursIn (f r) (concatStrings (l.map f)) := by
  intro l
  induction l with
  | nil => intro h; cases h
  | cons a t ih =>
    intro h
    rcases List.mem_cons.mp h with h1 | h2
    · subst h1
      exact occursIn_append_left _ _ _ (occursIn_refl (f r))
    · exact occursIn_append_right _ _ _ (ih h2)

/-! ## Spec-side description of the allow entries (spec §4.5 and §8) -/

/-- One allow entry of the allow-exceptions policy, as the spec describes
it: a peer namespace, a protocol and a port. -/
structure AllowEntry where
  peerNamespace : String
  protocol : String
  port : Nat
deriving DecidableEq

/-- Spec-side: the ordered list of ingress allow entries the spec demands
(one per input rule with direction "ingress", in input order, carrying the
rule's peer namespace, protocol and port). -/
def specIngressAllowEntries (rules : List Rule) : List AllowEntry :=
  (rules.filter (fun r => r.direction == "ingress")).map
    (fun r => ⟨r.fromNamespace.getD "", r.protocol, r.port⟩)

/-- Spec-side: the ordered list of egress allow entries the spec demands. -/
def specEgressAllowEntries (rules : List Rule) : List AllowEntry :=
  (rules.filter (fun r => r.direction == "egress")).map
    (fun r => ⟨r.toNamespace.getD "", r.protocol, r.port⟩)

/-- The text of an ingress allow entry with the given fields. -/
def renderIngressAllowEntry (e : AllowEntry) : String :=
  "  - from:\n    - namespaceSelector:\n        matchLabels:\n          kubernetes.io/metadata.name: " ++
  e.peerNamespace ++
  "\n    ports:\n    - protocol: " ++ e.protocol ++
  "\n      port: " ++ toString e.port ++ "\n"

/-- The text of an egress allow entry with the given fields. -/
def renderEgressAllowEntry (e : AllowEntry) : String :=
  "  - to:\n    - namespaceSelector:\n        matchLabels:\n          kubernetes.io/metadata.name: " ++
  e.peerNamespace ++
  "\n    ports:\n    - protocol: " ++ e.protocol ++
  "\n      port: " ++ toString e.port ++ "\n"

theorem specIngressAllowEntries_eq_map (rules : List Rule) :
    specIngressAllowEntries rules =
      (ingress_rules rules).map
        (fun r => ⟨r.fromNamespace.getD "", r.protocol, r.port⟩) := rfl

theorem specEgressAllowEntries_eq_map (rules : List Rule) :
    specEgressAllowEntries rules =
      (egress_rules rules).map
        (fun r => ⟨r.toNamespace.getD "", r.protocol, r.port⟩) := rfl

/-- C1: for every profile, the allow policy has exactly one ingress
allow-entry per input rule with direction "ingress" and one egress
allow-entry per input rule with direction "egress" (so N resp. M of
them); the k-th entry of each direction carries the peer namespace,
protocol and port of the k-th input rule of that direction; the partition
of the rules by direction preserves the original relative order
(sublists); and the emitted ingress/egress blocks are exactly the
rendering of these entry lists. -/
theorem C1_allow_entries_correct (p : Profile) :
    (specIngressAllowEntries (getRules p.network)).length
        = (getRules p.network).countP (fun r => r.direction == "ingress")
  ∧ (specEgressAllowEntries (getRules p.network)).length
        = (getRules p.network).countP (fun r => r.direction == "egress")
  ∧ (∀ k (h1 : k < (specIngressAllowEntries (getRules p.network)).length)
        (h2 : k < (ingress_rules (getRules p.network)).length),
        (specIngressAllowEntries (getRules p.network)).get ⟨k, h1⟩ =
          ⟨((ingress_rules (getRules p.network)).get ⟨k, h2⟩).fromNamespace.getD "",
            ((ingress_rules (getRules p.network)).get ⟨k, h2⟩).protocol,
            ((ingress_rules (getRules p.network)).get ⟨k, h2⟩).port⟩)
  ∧ (∀ k (h1 : k < (specEgressAllowEntries (getRules p.network)).length)
        (h2 : k < (egress_rules (getRules p.network)).length),
        (specEgressAllowEntries (getRules p.network)).get ⟨k, h1⟩ =
          ⟨((egress_rules (getRules p.network)).get ⟨k, h2⟩).toNamespace.getD "",
            ((egress_rules (getRules p.network)).get ⟨k, h2⟩).protocol,
            ((egress_rules (getRules p.network)).get ⟨k, h2⟩).port⟩)
  ∧ (ingress_rules (getRules p.network)).Sublist (getRules p.network)
  ∧ (egress_rules (getRules p.network)).Sublist (getRules p.network)
  ∧ ingress_block (getRules p.network) =
      (if specIngressAllowEntries (getRules p.network) = [] then "  ingress: []\n"
       else "  ingress:\n" ++
         concatStrings ((specIngressAllowEntries (getRules p.network)).map
           renderIngressAllowEntry))
  ∧ egress_block (getRules p.network) =
      (if specEgressAllowEntries (getRules p.network) = [] then "  egress: []\n"
       else "  egress:\n" ++
         concatStrings ((specEgressAllowEntries (getRules p.network)).map
           renderEgressAllowEntry)) := by
  refine ⟨?_, ?_, ?_, ?_, ?_, ?_, ?_, ?_⟩
  · simp [specIngressAllowEntries, List.countP_eq_length_filter]
  · simp [specEgressAllowEntries, List.countP_eq_length_filter]
  · intro k h1 h2
    simp [specIngressAllowEntries, ingress_rules, List.get_eq_getElem,
      List.getElem_map]
  · intro k h1 h2
    simp [specEgressAllowEntries, egress_rules, List.get_eq_getElem,
      List.getElem_map]
  · exact List.filter_sublist _
  · exact List.filter_sublist _
  · by_cases hnil : ingress_rules (getRules p.network) = []
    · rw [ingress_block, if_neg (by simp [hnil]),
        if_pos (by simp [specIngressAllowEntries_eq_map, hnil])]
    · rw [ingress_block, if_pos hnil,
        if_neg (by simp [specIngressAllowEntries_eq_map, hnil]),
        foldl_append_eq_concat]
      rw [show (specIngressAllowEntries (getRules p.network)).map
            renderIngressAllowEntry
          = (ingress_rules (getRules p.network)).map ingress_entry from by
        rw [specIngressAllowEntries_eq_map, List.map_map]
        rfl]
  · by_cases hnil : egress_rules (getRules p.network) = []
    · rw [egress_block, if_neg (by simp [hnil]),
        if_pos (by simp [specEgressAllowEntries_eq_map, hnil])]
    · rw [egress_block, if_pos hnil,
        if_neg (by simp [specEgressAllowEntries_eq_map, hnil]),
        foldl_append_eq_concat]
      rw [show (specEgressAllowEntries (getRules p.network)).map
            renderEgressAllowEntry
          = (egress_rules (getRules p.network)).map egress_entry from by
        rw [specEgressAllowEntries_eq_map, List.map_map]
        rfl]

/-- The example profile from spec §8: one ingress rule from `monitoring`
on TCP/9090, deny-ingress on, deny-egress off. -/
def exampleProfile : Profile :=
  { name := "worker", version := "1", distro := "ubuntu", os_version := "22.04",
    packages := ["curl"],
    network :=
      { rules := some [{ direction := "ingress", protocol := "TCP", port := 9090,
                         fromNamespace := some "monitoring", toNamespace := none }],
        default_deny_ingress := some true, default_deny_egress := some false } }

/-- A profile with zero network rules and both deny flags true (total
isolation). -/
def isolationProfile : Profile :=
  { name := "iso", version := "1", distro := "debian", os_version := "12",
    packages := [],
    network := { rules := some [], default_deny_ingress := some true,
                 default_deny_egress := some true } }

/-- Witness for C1 at the spec §8 example profile: its single ingress
rule yields a single first allow entry for `monitoring`, TCP, 9090. -/
theorem C1_allow_entries_correct_witness :
    0 < (specIngressAllowEntries (getRules exampleProfile.network)).length
  ∧ (specIngressAllowEntries (getRules exampleProfile.network)).get ⟨0, by decide⟩
      = ⟨"monitoring", "TCP", 9090⟩ := by
  have h := C1_allow_entries_correct exampleProfile
  refine ⟨by decide, ?_⟩
  exact (h.2.2.1 0 (by decide) (by decide)).trans (by decide)

/-- C2: "Ingress" appears in the emitted policyTypes text (and in the
computed policyTypes list) exactly when the `default_deny_ingress` flag
is truthy, likewise "Egress" with `default_deny_egress`; and the
networkpolicy document reuses the very same policyTypes text verbatim in
the default-deny document and in the allow document. -/
theorem C2_policy_types_iff (p : Profile) :
    (occursIn "Ingress" (policy_types_str p.network)
        ↔ truthy p.network.default_deny_ingress = true)
  ∧ (occursIn "Egress" (policy_types_str p.network)
        ↔ truthy p.network.default_deny_egress = true)
  ∧ ("Ingress" ∈ policy_types p.network
        ↔ truthy p.network.default_deny_ingress = true)
  ∧ ("Egress" ∈ policy_types p.network
        ↔ truthy p.network.default_deny_egress = true)
  ∧ networkpolicy_yaml p =
      deny_policy_header ++ policy_types_str p.network ++ "\n---\n" ++
      allow_policy_header ++ policy_types_str p.network ++ "\n" ++
      ingress_block (getRules p.network) ++ egress_block (getRules p.network) := by
  refine ⟨?_, ?_, ?_, ?_, rfl⟩ <;>
    cases hI : truthy p.network.default_deny_ingress <;>
    cases hE : truthy p.network.default_deny_egress <;>
    simp [policy_types_str, policy_types, hI, hE] <;>
    decide

/-- Witness for C2 at the spec §8 example profile, whose deny-ingress
flag is true and deny-egress flag is false. -/
theorem C2_policy_types_iff_witness :
    occursIn "Ingress" (policy_types_str exampleProfile.network)
  ∧ ¬ occursIn "Egress" (policy_types_str exampleProfile.network) := by
  have h := C2_policy_types_iff exampleProfile
  exact ⟨h.1.mpr rfl, fun hc => absurd (h.2.1.mp hc) (by decide)⟩

/-- C3: a profile with no rule of a given direction still gets the
explicit empty list for that direction in the allow policy; with zero
rules and both deny flags true, policyTypes contains both "Ingress" and
"Egress" and the allow policy carries both empty lists (total
isolation). -/
theorem C3_empty_directions (p : Profile) :
    ((∀ r ∈ getRules p.network, r.direction ≠ "ingress") →
        ingress_block (getRules p.network) = "  ingress: []\n")
  ∧ ((∀ r ∈ getRules p.network, r.direction ≠ "egress") →
        egress_block (getRules p.network) = "  egress: []\n")
  ∧ (getRules p.network = [] →
      truthy p.network.default_deny_ingress = true →
      truthy p.network.default_deny_egress = true →
        policy_types p.network = ["Ingress", "Egress"]
      ∧ networkpolicy_yaml p =
          deny_policy_header ++ "  - Ingress\n  - Egress" ++ "\n---\n" ++
          allow_policy_header ++ "  - Ingress\n  - Egress" ++ "\n" ++
          "  ingress: []\n" ++ "  egress: []\n") := by
  refine ⟨?_, ?_, ?_⟩
  · intro hin
    have hnil : ingress_rules (getRules p.network) = [] :=
      List.filter_eq_nil_iff.mpr (fun a ha => by simpa using hin a ha)
    simp [ingress_block, hnil]
  · intro heg
    have hnil : egress_rules (getRules p.network) = [] :=
      List.filter_eq_nil_iff.mpr (fun a ha => by simpa using heg a ha)
    simp [egress_block, hnil]
  · intro h0 hI hE
    have hpt : policy_types p.network = ["Ingress", "Egress"] := by
      simp [policy_types, hI, hE]
    refine ⟨hpt, ?_⟩
    simp only [networkpolicy_yaml, policy_types_str, hpt, h0]
    rfl

/-- Witness for C3 at the total-isolation profile. -/
theorem C3_empty_directions_witness :
    policy_types isolationProfile.network = ["Ingress", "Egress"]
  ∧ networkpolicy_yaml isolationProfile =
      deny_policy_header ++ "  - Ingress\n  - Egress" ++ "\n---\n" ++
      allow_policy_header ++ "  - Ingress\n  - Egress" ++ "\n" ++
      "  ingress: []\n" ++ "  egress: []\n" :=
  (C3_empty_directions isolationProfile).2.2 rfl rfl rfl

/-- C4: a rule that omits its peer-namespace field is rendered exactly as
if the namespace were the empty string (no error), and its allow entry is
still emitted into the generated networkpolicy document. -/
theorem C4_missing_namespace_lenient (p : Profile) (r : Rule) :
    (r.fromNamespace = none →
        ingress_entry r = ingress_entry { r with fromNamespace := some "" })
  ∧ (r.toNamespace = none →
        egress_entry r = egress_entry { r with toNamespace := some "" })
  ∧ (r ∈ getRules p.network → r.direction = "ingress" →
        occursIn (ingress_entry r) (networkpolicy_yaml p))
  ∧ (r ∈ getRules p.network → r.direction = "egress" →
        occursIn (egress_entry r) (networkpolicy_yaml p)) := by
  refine ⟨?_, ?_, ?_, ?_⟩
  · intro h; simp [ingress_entry, h]
  · intro h; simp [egress_entry, h]
  · intro hmem hdir
    have hmem2 : r ∈ ingress_rules (getRules p.network) :=
      List.mem_filter.mpr ⟨hmem, by simp [hdir]⟩
    have hblock : occursIn (ingress_entry r) (ingress_block (getRules p.network)) := by
      have hne : ingress_rules (getRules p.network) ≠ [] := by
        intro h0; rw [h0] at hmem2; cases hmem2
      simp only [ingress_block, if_pos hne, foldl_append_eq_concat]
      exact occursIn_append_right _ _ _
        (occursIn_concat_of_mem ingress_entry r _ hmem2)
    simp only [networkpolicy_yaml]
    exact occursIn_append_left _ _ _ (occursIn_append_right _ _ _ hblock)
  · intro hmem hdir
    have hmem2 : r ∈ egress_rules (getRules p.network) :=
      List.mem_filter.mpr ⟨hmem, by simp [hdir]⟩
    have hblock : occursIn (egress_entry r) (egress_block (getRules p.network)) := by
      have hne : egress_rules (getRules p.network) ≠ [] := by
        intro h0; rw [h0] at hmem2; cases hmem2
      simp only [egress_block, if_pos hne, foldl_append_eq_concat]
      exact occursIn_append_right _ _ _
        (occursIn_concat_of_mem egress_entry r _ hmem2)
    simp only [networkpolicy_yaml]
    exact occursIn_append_right _ _ _ hblock

/-- A profile with one ingress rule and one egress rule that both omit
their peer-namespace field. -/
def missingNsProfile : Profile :=
  { name := "worker", version := "1", distro := "ubuntu", os_version := "22.04",
    packages := [],
    network :=
      { rules := some
          [{ direction := "ingress", protocol := "TCP", port := 80,
             fromNamespace := none, toNamespace := none },
           { direction := "egress", protocol := "UDP", port := 53,
             fromNamespace := none, toNamespace := none }],
        default_deny_ingress := some true, default_deny_egress := some true } }

/-- Witness for C4: both namespace-less rules of `missingNsProfile` are
rendered with the empty namespace value and still land in the document. -/
theorem C4_missing_namespace_lenient_witness :
    occursIn
      (ingress_entry { direction := "ingress", protocol := "TCP", port := 80,
                       fromNamespace := none, toNamespace := none })
      (networkpolicy_yaml missingNsProfile)
  ∧ occursIn
      (egress_entry { direction := "egress", protocol := "UDP", port := 53,
                      fromNamespace := none, toNamespace := none })
      (networkpolicy_yaml missingNsProfile) := by
  exact ⟨(C4_missing_namespace_lenient missingNsProfile _).2.2.1 (by decide) rfl,
         (C4_missing_namespace_lenient missingNsProfile _).2.2.2 (by decide) rfl⟩

set_option maxRecDepth 8000 in
/-- C5 counterexample: not every resource-specific field is a template
reference.  The namespace manifest is an f-string that bakes the profile
name in at generation time — for the spec §8 profile it reads
`name: worker` and contains no template delimiter at all — and the
deployment manifest bakes `containerPort: 80` (and the service manifest
`targetPort: 80`) in as literals. -/
theorem C5_counterexample_literal_fields :
    namespace_yaml exampleProfile
      = "apiVersion: v1\nkind: Namespace\nmetadata:\n  name: worker\n"
  ∧ ¬ occursIn "\x7b\x7b" (namespace_yaml exampleProfile)
  ∧ occursIn "containerPort: 80" deployment_yaml
  ∧ occursIn "targetPort: 80" service_yaml := by
  refine ⟨rfl, by decide, by decide, by decide⟩

/-- C5 amended: in the deployment and service manifests the name,
namespace, replica count, image reference, pull policy and service
port/type are template references resolved at install time; but the
namespace manifest's name is interpolated as a literal at generation
time, and the deployment's container port and the service's target port
are the literal 80. -/
theorem C5_amended_template_references (p : Profile) :
    occursIn "name: \x7b\x7b .Values.app.name \x7d\x7d" deployment_yaml
  ∧ occursIn "namespace: \x7b\x7b .Values.namespace \x7d\x7d" deployment_yaml
  ∧ occursIn "replicas: \x7b\x7b .Values.replicaCount \x7d\x7d" deployment_yaml
  ∧ occursIn
      "image: \"\x7b\x7b .Values.image.repository \x7d\x7d:\x7b\x7b .Values.image.tag \x7d\x7d\""
      deployment_yaml
  ∧ occursIn "imagePullPolicy: \x7b\x7b .Values.image.pullPolicy \x7d\x7d" deployment_yaml
  ∧ occursIn "name: \x7b\x7b .Values.app.name \x7d\x7d-svc" service_yaml
  ∧ occursIn "namespace: \x7b\x7b .Values.namespace \x7d\x7d" service_yaml
  ∧ occursIn "port: \x7b\x7b .Values.service.port \x7d\x7d" service_yaml
  ∧ occursIn "type: \x7b\x7b .Values.service.type \x7d\x7d" service_yaml
  ∧ occursIn "containerPort: 80" deployment_yaml
  ∧ occursIn "targetPort: 80" service_yaml
  ∧ namespace_yaml p
      = "apiVersion: v1\nkind: Namespace\nmetadata:\n  name: " ++ p.name ++ "\n" := by
  set_option maxRecDepth 8000 in
  exact ⟨by decide, by decide, by decide, by decide, by decide, by decide,
         by decide, by decide, by decide, by decide, by decide, rfl⟩

/-- C6: for every profile with non-empty distro, name and version, the
image tag equals distro-name-vversion exactly, and precisely that string
is written after `tag: ` in the values document. -/
theorem C6_image_tag_format (p : Profile)
    (_h1 : p.distro ≠ "") (_h2 : p.name ≠ "") (_h3 : p.version ≠ "") :
    image_tag p = p.distro ++ "-" ++ p.name ++ "-v" ++ p.version
  ∧ occursIn ("tag: \"" ++ (p.distro ++ "-" ++ p.name ++ "-v" ++ p.version) ++ "\"")
      (values_yaml p) := by
  refine ⟨rfl,
    ⟨("replicaCount: 1\n\nimage:\n  repository: YOUR_DOCKERHUB_USERNAME/" ++
        p.name ++ "\n  ").data,
     ("\n  pullPolicy: IfNotPresent\n\nnamespace: " ++ p.name ++
        "\n\nservice:\n  type: ClusterIP\n  port: 80\n\napp:\n  name: " ++
        p.name ++ "\n").data, ?_⟩⟩
  simp only [values_yaml, image_tag, String.data_append, List.append_assoc]

/-- Witness for C6 at the spec §8 example profile. -/
theorem C6_image_tag_format_witness :
    image_tag exampleProfile = "ubuntu-worker-v1"
  ∧ occursIn "tag: \"ubuntu-worker-v1\"" (values_yaml exampleProfile) := by
  have h := C6_image_tag_format exampleProfile (by decide) (by decide) (by decide)
  exact ⟨h.1, h.2⟩

/-- C7: generation is a pure function of the profile document — equal
profiles produce byte-identical artifacts, with no hidden state. -/
theorem C7_generation_deterministic (p₁ p₂ : Profile) (h : p₁ = p₂) :
    generateAll p₁ = generateAll p₂ :=
  congrArg generateAll h

/-- Witness for C7: two runs on the spec §8 example profile agree. -/
theorem C7_generation_deterministic_witness :
    generateAll exampleProfile = generateAll exampleProfile :=
  C7_generation_deterministic exampleProfile exampleProfile rfl

/-- C9: an empty package list still yields the Dockerfile with a
syntactically valid install step — the package manager is invoked with
the (empty) space-joined package list, rather than the step being
omitted or generation failing. -/
theorem C9_empty_packages_ok (p : Profile) (h : p.packages = []) :
    pkg_list p = ""
  ∧ dockerfile p =
      "FROM " ++ p.distro ++ ":" ++ p.os_version ++
      "\n\nRUN apt-get update && \\\n    apt-get install -y " ++
      " && \\\n    rm -rf /var/lib/apt/lists/*\n\nCMD [\"/bin/sh\", \"-c\", \"while true; do sleep 3600; done\"]\n" := by
  have hp : pkg_list p = "" := by rw [pkg_list, h]; rfl
  refine ⟨hp, ?_⟩
  simp [dockerfile, base_image, hp, String.append_assoc, String.append_empty,
    String.empty_append]

/-- Witness for C9 at the packageless isolation profile. -/
theorem C9_empty_packages_ok_witness :
    pkg_list isolationProfile = ""
  ∧ dockerfile isolationProfile =
      "FROM debian:12\n\nRUN apt-get update && \\\n    apt-get install -y  && \\\n    rm -rf /var/lib/apt/lists/*\n\nCMD [\"/bin/sh\", \"-c\", \"while true; do sleep 3600; done\"]\n" := by
  have h := C9_empty_packages_ok isolationProfile rfl
  exact ⟨h.1, h.2⟩

theorem filtered_directions_le (l : List Rule) :
    (ingress_rules l).length + (egress_rules l).length ≤ l.length := by
  induction l with
  | nil => simp [ingress_rules, egress_rules]
  | cons a t ih =>
    simp only [ingress_rules, egress_rules] at ih
    by_cases hi : a.direction = "ingress"
    · have he : (a.direction == "egress") = false := by simp [hi]
      have hi2 : (a.direction == "ingress") = true := by simp [hi]
      simp [ingress_rules, egress_rules, List.filter_cons, hi2, he]
      omega
    · have hi2 : (a.direction == "ingress") = false := by simp [hi]
      by_cases he : a.direction = "egress"
      · have he2 : (a.direction == "egress") = true := by simp [he]
        simp [ingress_rules, egress_rules, List.filter_cons, hi2, he2]
        omega
      · have he2 : (a.direction == "egress") = false := by simp [he]
        simp [ingress_rules, egress_rules, List.filter_cons, hi2, he2]
        omega

/-- C10: a rule whose direction is neither "ingress" nor "egress" is
silently dropped — removing it from the rules list changes neither
partition and neither emitted block, and the total number of emitted
allow entries is strictly less than the number of input rules. -/
theorem C10_unknown_direction_dropped (pre post : List Rule) (r : Rule)
    (h1 : r.direction ≠ "ingress") (h2 : r.direction ≠ "egress") :
    ingress_rules (pre ++ r :: post) = ingress_rules (pre ++ post)
  ∧ egress_rules (pre ++ r :: post) = egress_rules (pre ++ post)
  ∧ ingress_block (pre ++ r :: post) = ingress_block (pre ++ post)
  ∧ egress_block (pre ++ r :: post) = egress_block (pre ++ post)
  ∧ (ingress_rules (pre ++ r :: post)).length + (egress_rules (pre ++ r :: post)).length
      < (pre ++ r :: post).length := by
  have hif : (r.direction == "ingress") = false := by simp [h1]
  have hef : (r.direction == "egress") = false := by simp [h2]
  have e1 : ingress_rules (pre ++ r :: post) = ingress_rules (pre ++ post) := by
    simp [ingress_rules, List.filter_append, List.filter_cons, hif]
  have e2 : egress_rules (pre ++ r :: post) = egress_rules (pre ++ post) := by
    simp [egress_rules, List.filter_append, List.filter_cons, hef]
  refine ⟨e1, e2, ?_, ?_, ?_⟩
  · simp only [ingress_block, e1]
  · simp only [egress_block, e2]
  · rw [e1, e2]
    have hle := filtered_directions_le (pre ++ post)
    have hlen : (pre ++ post).length < (pre ++ r :: post).length := by
      simp [List.length_append]
    omega

/-- A rule with an unrecognized direction. -/
def badRule : Rule :=
  { direction := "internal", protocol := "TCP", port := 1,
    fromNamespace := none, toNamespace := none }

/-- Witness for C10: a single unknown-direction rule contributes nothing. -/
theorem C10_unknown_direction_dropped_witness :
    ingress_rules [badRule] = ingress_rules []
  ∧ egress_rules [badRule] = egress_rules []
  ∧ ingress_block [badRule] = ingress_block []
  ∧ egress_block [badRule] = egress_block []
  ∧ (ingress_rules [badRule]).length + (egress_rules [badRule]).length
      < [badRule].length :=
  C10_unknown_direction_dropped [] [] badRule (by decide) (by decide)

/-! ## Profile loading and field access (load_profile, lines 19-22)

The script reads the profile with `open` and `yaml.safe_load` and then
accesses fields with plain subscripts.  We embed the filesystem and the
external YAML parser as explicit parameters, and the parsed document as
a structured value on which subscript access either returns the value or
fails with the absent key's error. -/

/-- A parsed YAML-like document. -/
inductive Yaml where
  | str : String → Yaml
  | num : Nat → Yaml
  | boolean : Bool → Yaml
  | null : Yaml
  | arr : List Yaml → Yaml
  | dict : List (String × Yaml) → Yaml

/-- Python subscript access `v[k]`: the value under key `k` of a dict,
a KeyError for a missing key, a TypeError on a non-dict. -/
def getItem (v : Yaml) (k : String) : Except String Yaml :=
  match v with
  | .dict kvs =>
    match kvs.lookup k with
    | some x => .ok x
    | none => .error ("KeyError: " ++ k)
  | _ => .error ("TypeError: " ++ k)

/-- `load_profile` (lines 19-22): `open(path)` fails when the path does
not exist, otherwise the file's text goes to the external parser, whose
result (parsed document or parse error) is returned as is — no schema
validation happens here.  `fs` embeds the filesystem, `parse` the
external `yaml.safe_load`. -/
def load_profile (fs : String → Option String)
    (parse : String → Except String Yaml) (path : String) : Except String Yaml :=
  match fs path with
  | none => .error ("FileNotFoundError: " ++ path)
  | some text => parse text

/-- The field accesses `generate_dockerfile` performs, in source order
(lines 27-29): `profile["os"]["distro"]`, `profile["os"]["version"]`,
`profile["packages"]`; the first failing access aborts. -/
def dockerfile_fields (doc : Yaml) : Except String (Yaml × Yaml × Yaml) :=
  match getItem doc "os" with
  | .error e => .error e
  | .ok os1 =>
    match getItem os1 "distro" with
    | .error e => .error e
    | .ok distro =>
      match getItem doc "os" with
      | .error e => .error e
      | .ok os2 =>
        match getItem os2 "version" with
        | .error e => .error e
        | .ok version =>
          match getItem doc "packages" with
          | .error e => .error e
          | .ok packages => .ok (distro, version, packages)

/-- C8: loading fails with an error when the path does not exist; a parse
result (success or parse error) is passed through unvalidated; and a
well-formed document missing a required field makes generation fail with
the absent key's error at the first access of that field — earlier
accesses succeed, there is no pre-flight validation pass. -/
theorem C8_loader_lazy_validation (fs : String → Option String)
    (parse : String → Except String Yaml) (path : String) (doc : Yaml) :
    (fs path = none →
        load_profile fs parse path = .error ("FileNotFoundError: " ++ path))
  ∧ (∀ text, fs path = some text → load_profile fs parse path = parse text)
  ∧ (∀ e, getItem doc "os" = .error e → dockerfile_fields doc = .error e)
  ∧ (∀ os1 e, getItem doc "os" = .ok os1 → getItem os1 "distro" = .error e →
        dockerfile_fields doc = .error e)
  ∧ (∀ os1 distro version, getItem doc "os" = .ok os1 →
        getItem os1 "distro" = .ok distro → getItem os1 "version" = .ok version →
        getItem doc "packages" = .error ("KeyError: packages") →
        dockerfile_fields doc = .error ("KeyError: packages")) := by
  refine ⟨?_, ?_, ?_, ?_, ?_⟩
  · intro h; simp [load_profile, h]
  · intro text h; simp [load_profile, h]
  · intro e h; simp [dockerfile_fields, h]
  · intro os1 e h1 h2; simp [dockerfile_fields, h1, h2]
  · intro os1 distro version h1 h2 h3 h4
    simp [dockerfile_fields, h1, h2, h3, h4]

/-- A well-formed document with the `os` section complete but no
`packages` key. -/
def missingPackagesDoc : Yaml :=
  .dict [("os", .dict [("distro", .str "ubuntu"), ("version", .str "22.04")]),
         ("profile", .dict [("name", .str "worker"), ("version", .str "1")])]

/-- Witness for C8: a missing file fails at load, and a document without
`packages` fails exactly with that key's error. -/
theorem C8_loader_lazy_validation_witness :
    load_profile (fun _ => none) (fun _ => .ok .null) "profile.yaml"
      = .error ("FileNotFoundError: " ++ "profile.yaml")
  ∧ dockerfile_fields missingPackagesDoc = .error ("KeyError: packages") := by
  refine ⟨(C8_loader_lazy_validation (fun _ => none) (fun _ => .ok .null)
      "profile.yaml" missingPackagesDoc).1 rfl, ?_⟩
  exact (C8_loader_lazy_validation (fun _ => none) (fun _ => .ok .null)
      "profile.yaml" missingPackagesDoc).2.2.2.2 _ _ _ rfl rfl rfl rfl

end TpInfra
